import Mathlib

/-!
Verification of the breakeven/contribution calculator and sales-history ledger
of the café dashboard (`src/app.py`), stripped of all chart and styling code.

The embedded core is:
  * the product dictionary `items` (per-product price and variable cost),
  * the quantity dictionary `st.session_state.state`,
  * the history list `st.session_state.sales_history`,
  * `update_sales(item, action)`  (app.py lines 76-100),
  * the snapshot arithmetic      (app.py lines 85-89 and 230-235),
  * `reset_all()`                (app.py lines 195-197).
Session-state mutations become explicit state passing: `update_sales` takes the
current quantities and history and returns the new ones.
-/

namespace UnitEconomics

/-- The three products, the keys of the `items` dictionary in `app.py`. -/
inductive Item : Type
  | Latte
  | Americano
  | Cappuccino
deriving DecidableEq, Repr

/-- The products in the order in which the `items` dictionary iterates. -/
def allItems : List Item := [Item.Latte, Item.Americano, Item.Cappuccino]

/-- An integer-valued record over the three products.  Used for the quantity
dictionary `st.session_state.state` and for the per-product `price` and
`variable_cost` entries of `items` (Python integers, hence `Int`). -/
structure ItemMap where
  latte : Int
  americano : Int
  cappuccino : Int
deriving DecidableEq, Repr

def ItemMap.get (m : ItemMap) : Item → Int
  | Item.Latte => m.latte
  | Item.Americano => m.americano
  | Item.Cappuccino => m.cappuccino

def ItemMap.set (m : ItemMap) : Item → Int → ItemMap
  | Item.Latte, v => { m with latte := v }
  | Item.Americano, v => { m with americano := v }
  | Item.Cappuccino, v => { m with cappuccino := v }

/-- The per-product economics held by the `items` dictionary of `app.py`
(the presentation-only `color` field is omitted as out of scope). -/
structure Catalog where
  price : ItemMap
  variable_cost : ItemMap
deriving DecidableEq, Repr

/-- The default `items` dictionary of `app.py` (lines 61-65): prices
150/120/180 and variable costs 50/40/60 for Latte/Americano/Cappuccino. -/
def items : Catalog :=
  { price := ⟨150, 120, 180⟩, variable_cost := ⟨50, 40, 60⟩ }

/-- `fixed_costs = 50000` (app.py line 66). -/
def fixed_costs : Int := 50000

/-- One entry of `sales_history` (app.py lines 91-98): the computed totals
together with `state.copy()`, the per-product quantities at capture time. -/
structure Snapshot where
  total_units : Int
  revenue : Int
  variable_cost : Int
  contribution : Int
  profit : Int
  state : ItemMap
deriving DecidableEq, Repr

/-- The initial quantity state `{"Latte": 0, "Americano": 0, "Cappuccino": 0}`
(app.py line 70). -/
def initialState : ItemMap := ⟨0, 0, 0⟩

/-- The snapshot arithmetic of `app.py` lines 85-89 (repeated verbatim at
lines 230-235 for the metric boxes):
`total_units = sum(state.values())`,
`revenue = sum(state[item] * items[item]["price"] for item in state)`,
`variable_cost = sum(state[item] * items[item]["variable_cost"] for item in state)`,
`contribution = revenue - variable_cost`, `profit = contribution - fixed_costs`,
packaged with `state.copy()` as in the dict appended at lines 91-98. -/
def computeSnapshot (cat : Catalog) (fc : Int) (state : ItemMap) : Snapshot :=
  { total_units := (allItems.map (fun i => state.get i)).sum
    revenue := (allItems.map (fun i => state.get i * cat.price.get i)).sum
    variable_cost := (allItems.map (fun i => state.get i * cat.variable_cost.get i)).sum
    contribution := (allItems.map (fun i => state.get i * cat.price.get i)).sum -
      (allItems.map (fun i => state.get i * cat.variable_cost.get i)).sum
    profit := ((allItems.map (fun i => state.get i * cat.price.get i)).sum -
      (allItems.map (fun i => state.get i * cat.variable_cost.get i)).sum) - fc
    state := state }

/-- The mutation step of `update_sales` (app.py lines 80-83):
`if action == "add": state[item] += 1`
`elif action == "remove" and state[item] > 0: state[item] -= 1`. -/
def applyAction (state : ItemMap) (item : Item) (action : String) : ItemMap :=
  if action = "add" then state.set item (state.get item + 1)
  else if action = "remove" ∧ state.get item > 0 then
    state.set item (state.get item - 1)
  else state

/-- `update_sales(item, action)` (app.py lines 76-100): mutates the quantity
state per `applyAction`, recomputes the snapshot from the new state, and
appends it to `sales_history`.  Session state becomes explicit: the function
returns the new quantity state and the new history. -/
def update_sales (cat : Catalog) (fc : Int) (state : ItemMap)
    (sales_history : List Snapshot) (item : Item) (action : String) :
    ItemMap × List Snapshot :=
  let newState := applyAction state item action
  (newState, sales_history ++ [computeSnapshot cat fc newState])

/-- `reset_all()` (app.py lines 195-197): quantities back to all zero,
history cleared. -/
def reset_all : ItemMap × List Snapshot := (initialState, [])

/-- Error kind of the spec's CatalogStore contract. -/
inductive CoreError : Type
  | InvalidInput
  | NotFound
deriving DecidableEq, Repr

/-- Modelled from the spec: `set_price(product_id, price)` of the CatalogStore
is not present in `src/app.py` (the price slider at lines 210-212 assigns
`items[item]["price"] = price` directly, with the 50-300 range enforced by the
presentation layer, which the spec places outside the core).  Per the spec it
"fails with `InvalidInput` if price < 0 or product_id unknown; otherwise
replaces stored price. No other side effects."  Product ids are the typed
`Item` here, so the unknown-id branch cannot arise; on failure the catalog is
returned unchanged. -/
def set_price (cat : Catalog) (item : Item) (price : Int) :
    Catalog × Option CoreError :=
  if price < 0 then (cat, some CoreError.InvalidInput)
  else ({ cat with price := cat.price.set item price }, none)

/-- A user interaction with the ledger: a sell/remove button press or the
reset button (app.py lines 215-225). -/
inductive Op : Type
  | sales (item : Item) (action : String)
  | reset
deriving DecidableEq, Repr

/-- One interaction applied to the (quantities, history) session state. -/
def step (cat : Catalog) (fc : Int) (s : ItemMap × List Snapshot) :
    Op → ItemMap × List Snapshot
  | Op.sales item action => update_sales cat fc s.1 s.2 item action
  | Op.reset => reset_all

/-- A whole session: the interactions applied in order, starting from the
freshly initialized session state (app.py lines 69-73). -/
def run (cat : Catalog) (fc : Int) (ops : List Op) : ItemMap × List Snapshot :=
  ops.foldl (step cat fc) (initialState, [])

/-- Internal consistency of one history entry: `contribution` is
`revenue - variable_cost`, `profit` is `contribution - fixed_costs`, and
`total_units` is the sum of the recorded per-product quantities. -/
def snapshotConsistent (fc : Int) (s : Snapshot) : Prop :=
  s.contribution = s.revenue - s.variable_cost ∧
  s.profit = s.contribution - fc ∧
  s.total_units = (allItems.map (fun i => s.state.get i)).sum

instance (fc : Int) (s : Snapshot) : Decidable (snapshotConsistent fc s) := by
  unfold snapshotConsistent
  infer_instance

instance : Fintype Item where
  elems := ⟨{Item.Latte, Item.Americano, Item.Cappuccino}, by decide⟩
  complete := fun x => by cases x <;> decide

lemma ItemMap.get_set_self (m : ItemMap) (i : Item) (v : Int) :
    (m.set i v).get i = v := by
  cases i <;> rfl

lemma ItemMap.get_set_ne (m : ItemMap) (i j : Item) (v : Int) (h : j ≠ i) :
    (m.set i v).get j = m.get j := by
  cases i <;> cases j <;> simp_all [ItemMap.set, ItemMap.get]

lemma applyAction_add (st : ItemMap) (item : Item) :
    applyAction st item "add" = st.set item (st.get item + 1) := by
  unfold applyAction
  rw [if_pos rfl]

lemma applyAction_remove (st : ItemMap) (item : Item) :
    applyAction st item "remove" =
      if st.get item > 0 then st.set item (st.get item - 1) else st := by
  unfold applyAction
  rw [if_neg (by decide : ¬("remove" : String) = "add")]
  by_cases hpos : st.get item > 0
  · rw [if_pos ⟨rfl, hpos⟩, if_pos hpos]
  · rw [if_neg fun hcon => hpos hcon.2, if_neg hpos]

lemma applyAction_other (st : ItemMap) (item : Item) (action : String)
    (h1 : action ≠ "add") (h2 : action ≠ "remove") :
    applyAction st item action = st := by
  unfold applyAction
  rw [if_neg h1, if_neg fun hcon => h2 hcon.1]

lemma computeSnapshot_consistent (cat : Catalog) (fc : Int) (st : ItemMap) :
    snapshotConsistent fc (computeSnapshot cat fc st) := by
  refine ⟨rfl, rfl, rfl⟩

lemma run_aux (cat : Catalog) (fc : Int) (ops : List Op)
    (init : ItemMap × List Snapshot)
    (h : ∀ s ∈ init.2, snapshotConsistent fc s) :
    ∀ s ∈ (ops.foldl (step cat fc) init).2, snapshotConsistent fc s := by
  induction ops generalizing init with
  | nil => exact h
  | cons op rest ih =>
    simp only [List.foldl_cons]
    apply ih
    cases op with
    | sales item action =>
      intro s hs
      simp only [step, update_sales, List.mem_append, List.mem_singleton] at hs
      rcases hs with h1 | h2
      · exact h s h1
      · rw [h2]
        exact computeSnapshot_consistent cat fc _
    | reset =>
      intro s hs
      simp only [step, reset_all, List.not_mem_nil] at hs

/-- Claim C1: for every assignment of non-negative integer quantities, prices,
and unit variable costs, the snapshot computation yields
revenue = Σ qᵢ·pᵢ, variable_cost = Σ qᵢ·cᵢ,
contribution = revenue - variable_cost, and profit = contribution - fixed_costs. -/
theorem compute_snapshot_sums (cat : Catalog) (fc : Int) (st : ItemMap)
    (hq : ∀ i, 0 ≤ st.get i) (hp : ∀ i, 0 ≤ cat.price.get i)
    (hc : ∀ i, 0 ≤ cat.variable_cost.get i) :
    (computeSnapshot cat fc st).revenue =
      st.latte * cat.price.latte + st.americano * cat.price.americano +
        st.cappuccino * cat.price.cappuccino ∧
    (computeSnapshot cat fc st).variable_cost =
      st.latte * cat.variable_cost.latte +
        st.americano * cat.variable_cost.americano +
        st.cappuccino * cat.variable_cost.cappuccino ∧
    (computeSnapshot cat fc st).contribution =
      (computeSnapshot cat fc st).revenue -
        (computeSnapshot cat fc st).variable_cost ∧
    (computeSnapshot cat fc st).profit =
      (computeSnapshot cat fc st).contribution - fc := by
  refine ⟨?_, ?_, rfl, rfl⟩ <;>
    simp [computeSnapshot, allItems, ItemMap.get] <;> ring

theorem compute_snapshot_sums_witness :
    (computeSnapshot items 50000 ⟨2, 3, 4⟩).revenue = 1380 ∧
    (computeSnapshot items 50000 ⟨2, 3, 4⟩).variable_cost = 460 :=
  ⟨(compute_snapshot_sums items 50000 ⟨2, 3, 4⟩ (by decide) (by decide)
      (by decide)).1,
   (compute_snapshot_sums items 50000 ⟨2, 3, 4⟩ (by decide) (by decide)
      (by decide)).2.1⟩

/-- Claim C2: for every product and every (non-negative) current quantity, a
"remove" action never drives the quantity negative, and at quantity zero it
clamps: the state is left unchanged.  The operation is a total function, so it
never raises. -/
theorem remove_clamps (cat : Catalog) (fc : Int) (st : ItemMap)
    (hist : List Snapshot) (item : Item) (h : 0 ≤ st.get item) :
    0 ≤ (update_sales cat fc st hist item "remove").1.get item ∧
    (st.get item = 0 → (update_sales cat fc st hist item "remove").1 = st) := by
  have hst : (update_sales cat fc st hist item "remove").1 =
      applyAction st item "remove" := rfl
  constructor
  · rw [hst, applyAction_remove]
    by_cases hpos : st.get item > 0
    · rw [if_pos hpos, ItemMap.get_set_self]
      omega
    · rw [if_neg hpos]
      exact h
  · intro h0
    rw [hst, applyAction_remove, if_neg (by omega)]

theorem remove_clamps_witness :
    0 ≤ (update_sales items 50000 initialState [] Item.Latte "remove").1.get
      Item.Latte ∧
    (update_sales items 50000 initialState [] Item.Latte "remove").1 =
      initialState := by
  have h := remove_clamps items 50000 initialState [] Item.Latte (by decide)
  exact ⟨h.1, h.2 (by decide)⟩

/-- Claim C3: `reset_all` sets every product quantity to zero and clears the
history, and the snapshot computed immediately afterwards has every
per-product quantity, revenue, variable_cost, and contribution equal to 0,
and profit equal to -fixed_costs. -/
theorem reset_then_compute (cat : Catalog) (fc : Int) :
    (∀ i, reset_all.1.get i = 0) ∧ reset_all.2 = [] ∧
    (∀ i, (computeSnapshot cat fc reset_all.1).state.get i = 0) ∧
    (computeSnapshot cat fc reset_all.1).revenue = 0 ∧
    (computeSnapshot cat fc reset_all.1).variable_cost = 0 ∧
    (computeSnapshot cat fc reset_all.1).contribution = 0 ∧
    (computeSnapshot cat fc reset_all.1).profit = -fc := by
  refine ⟨fun i => by cases i <;> rfl, rfl, fun i => by cases i <;> rfl,
    ?_, ?_, ?_, ?_⟩ <;>
    simp [computeSnapshot, reset_all, initialState, allItems, ItemMap.get]

/-- Claim C4: the history is append-only: `update_sales` appends exactly one
snapshot at the end, leaving every earlier entry in place, and `reset_all` is
the operation that clears it.  (Entries are immutable values: `app.py` stores
`state.copy()`, modelled here by the snapshot holding the state by value.) -/
theorem history_append_only (cat : Catalog) (fc : Int) (st : ItemMap)
    (hist : List Snapshot) (item : Item) (action : String) :
    (update_sales cat fc st hist item action).2.length = hist.length + 1 ∧
    (update_sales cat fc st hist item action).2.take hist.length = hist ∧
    reset_all.2 = [] := by
  refine ⟨?_, ?_, rfl⟩
  · simp [update_sales]
  · simp [update_sales, List.take_left]

/-- Claim C5: the snapshot computation is deterministic and side-effect free:
two computations from identical state and catalog agree field by field (the
computation is a pure function of its inputs, so state, catalog, and history
are untouched by construction). -/
theorem compute_deterministic (cat : Catalog) (fc : Int) (st : ItemMap) :
    (computeSnapshot cat fc st).total_units =
      (computeSnapshot cat fc st).total_units ∧
    (computeSnapshot cat fc st).revenue = (computeSnapshot cat fc st).revenue ∧
    (computeSnapshot cat fc st).variable_cost =
      (computeSnapshot cat fc st).variable_cost ∧
    (computeSnapshot cat fc st).contribution =
      (computeSnapshot cat fc st).contribution ∧
    (computeSnapshot cat fc st).profit = (computeSnapshot cat fc st).profit ∧
    (computeSnapshot cat fc st).state = (computeSnapshot cat fc st).state :=
  ⟨rfl, rfl, rfl, rfl, rfl, rfl⟩

/-- Claim C6: with prices Latte 100 / Americano 90 / Cappuccino 110, variable
costs 50/40/60, fixed costs 7000, and quantities 100/50/30, the snapshot has
revenue 17800, variable_cost 8800, contribution 9000, profit 2000. -/
theorem scenario_breakeven :
    (computeSnapshot ⟨⟨100, 90, 110⟩, ⟨50, 40, 60⟩⟩ 7000 ⟨100, 50, 30⟩).revenue
      = 17800 ∧
    (computeSnapshot ⟨⟨100, 90, 110⟩, ⟨50, 40, 60⟩⟩ 7000
      ⟨100, 50, 30⟩).variable_cost = 8800 ∧
    (computeSnapshot ⟨⟨100, 90, 110⟩, ⟨50, 40, 60⟩⟩ 7000
      ⟨100, 50, 30⟩).contribution = 9000 ∧
    (computeSnapshot ⟨⟨100, 90, 110⟩, ⟨50, 40, 60⟩⟩ 7000 ⟨100, 50, 30⟩).profit
      = 2000 := by
  decide

/-- Claim C7: `set_price` with a negative price fails with `InvalidInput` and
leaves the catalog (in particular the prior price) unchanged; with a
non-negative price it succeeds, replaces exactly that product's stored price,
and changes nothing else. -/
theorem set_price_spec (cat : Catalog) (item : Item) (p : Int) :
    (p < 0 → set_price cat item p = (cat, some CoreError.InvalidInput)) ∧
    (0 ≤ p →
      (set_price cat item p).2 = none ∧
      (set_price cat item p).1.price.get item = p ∧
      (∀ j, j ≠ item → (set_price cat item p).1.price.get j = cat.price.get j) ∧
      (set_price cat item p).1.variable_cost = cat.variable_cost) := by
  constructor
  · intro hneg
    simp [set_price, hneg]
  · intro hpos
    have hnot : ¬ p < 0 := by omega
    refine ⟨by simp [set_price, hnot], by simp [set_price, hnot,
      ItemMap.get_set_self], ?_, by simp [set_price, hnot]⟩
    intro j hj
    simp [set_price, hnot, ItemMap.get_set_ne cat.price item j p hj]

theorem set_price_spec_witness :
    set_price items Item.Latte (-1) = (items, some CoreError.InvalidInput) ∧
    (set_price items Item.Latte 200).2 = none :=
  ⟨(set_price_spec items Item.Latte (-1)).1 (by decide),
   ((set_price_spec items Item.Latte 200).2 (by decide)).1⟩

/-- Claim C8: every snapshot stored in the history after any sequence of
`update_sales` and `reset_all` calls satisfies
contribution = revenue - variable_cost, profit = contribution - fixed_costs,
and total_units = the sum of the per-product quantities it records. -/
theorem history_entries_consistent (cat : Catalog) (fc : Int) (ops : List Op)
    (s : Snapshot) (hs : s ∈ (run cat fc ops).2) :
    snapshotConsistent fc s :=
  run_aux cat fc ops (initialState, [])
    (fun t ht => absurd ht (List.not_mem_nil t)) s hs

theorem history_entries_consistent_witness :
    snapshotConsistent 50000 (computeSnapshot items 50000 ⟨1, 0, 0⟩) :=
  history_entries_consistent items 50000 [Op.sales Item.Latte "add"]
    (computeSnapshot items 50000 ⟨1, 0, 0⟩) (by decide)

/-- Claim C9: a "remove" on a product whose quantity is zero leaves every
quantity unchanged but still appends exactly one snapshot, computed from the
unchanged state, to the history. -/
theorem remove_at_zero (cat : Catalog) (fc : Int) (st : ItemMap)
    (hist : List Snapshot) (item : Item) (h : st.get item = 0) :
    update_sales cat fc st hist item "remove" =
      (st, hist ++ [computeSnapshot cat fc st]) := by
  have hs : applyAction st item "remove" = st := by
    rw [applyAction_remove, if_neg (by omega)]
  simp [update_sales, hs]

theorem remove_at_zero_witness :
    update_sales items 50000 initialState [] Item.Americano "remove" =
      (initialState, [computeSnapshot items 50000 initialState]) :=
  remove_at_zero items 50000 initialState [] Item.Americano rfl

/-- Claim C10: `update_sales` is total over arbitrary action strings: for any
action other than "add" and "remove" it raises no error, leaves every quantity
unchanged, and still appends one snapshot computed from the unchanged state. -/
theorem update_sales_total_action (cat : Catalog) (fc : Int) (st : ItemMap)
    (hist : List Snapshot) (item : Item) (action : String)
    (h1 : action ≠ "add") (h2 : action ≠ "remove") :
    update_sales cat fc st hist item action =
      (st, hist ++ [computeSnapshot cat fc st]) := by
  simp [update_sales, applyAction_other st item action h1 h2]

theorem update_sales_total_action_witness :
    update_sales items 50000 ⟨5, 0, 2⟩ [] Item.Latte "replace" =
      (⟨5, 0, 2⟩, [computeSnapshot items 50000 ⟨5, 0, 2⟩]) :=
  update_sales_total_action items 50000 ⟨5, 0, 2⟩ [] Item.Latte "replace"
    (by decide) (by decide)

end UnitEconomics
